import Mathlib

/-!
Shallow embedding of `src/src/CircleSimulation.ts` (class `CircleSimulation`).

Modelling conventions:
* JavaScript numbers are modelled as real numbers (`ℝ`); `Math.sqrt` is
  `Real.sqrt`.  `Math.cos (Math.atan2 dy dx)` and `Math.sin (Math.atan2 dy dx)`
  are embedded by their closed forms `dx / sqrt (dx^2 + dy^2)` and
  `dy / sqrt (dx^2 + dy^2)` (with the JavaScript convention `atan2 0 0 = 0`,
  hence cosine `1` and sine `0` at the origin).
* Division by zero follows the Lean convention `x / 0 = 0`.
* The mutable fields of the class become the fields of a state structure;
  each method becomes a state-passing function.  Calls to `performance.now()`
  are modelled by an explicit `now : ℝ` argument, and the random hue chosen by
  `generateRandomColor` by an explicit natural-number argument.
* The frame loop (`animate`) is modelled as the host scheduler invoking the
  per-tick body `update` while the `running` flag is set; `start` and `stop`
  flip the flag and maintain the clock offset, the self-scheduling through
  `requestAnimationFrame` is external to the state.  `draw` only paints the
  canvas and mutates no simulation state, so it has no embedding.
* The recording subsystem (`setupRecording` / `startRecording`) is embedded
  separately over the recording-related fields, with the browser MediaRecorder
  modelled as a
  state machine that is `inactive` when freshly constructed and `recording`
  after `start()` is called on it.  Recorders are tagged with a fresh
  identifier so that replacing the recorder object is observable.
-/

namespace CircleSim

noncomputable section

/-- Field `INITIAL_BALL_RADIUS` (line 21 of the source): readonly constant 5. -/
def INITIAL_BALL_RADIUS : ℝ := 5

/-- Field `MOTION_BLUR_STEPS` (line 28 of the source): readonly constant 5. -/
def MOTION_BLUR_STEPS : Nat := 5

/-- The mutable state of a `CircleSimulation` instance together with its
per-instance constants (`WIDTH`, `HEIGHT` and the tuning parameters, which are
mutable through setters). -/
structure Sim where
  WIDTH : ℝ
  HEIGHT : ℝ
  GRAVITY : ℝ
  VELOCITY_INCREASE_FACTOR : ℝ
  VELOCITY_DECAY : ℝ
  BALL_GROWTH_RATE : ℝ
  ballRadius : ℝ
  ballCenter : ℝ × ℝ
  ballVelocity : ℝ × ℝ
  collisionPoints : List (ℝ × ℝ)
  previousPositions : List (ℝ × ℝ)
  simulationColor : Nat
  running : Bool
  isDragging : Bool
  startTime : ℝ
  elapsedTime : ℝ

/-- `CIRCLE_RADIUS` (line 45): `Math.min(WIDTH, HEIGHT) / 2 - 125`. -/
def CIRCLE_RADIUS (s : Sim) : ℝ := min s.WIDTH s.HEIGHT / 2 - 125

/-- `MAX_BALL_RADIUS` (line 46): `CIRCLE_RADIUS - 10`. -/
def MAX_BALL_RADIUS (s : Sim) : ℝ := CIRCLE_RADIUS s - 10

/-- The boundary centre `circleCenter` recomputed in `update` (line 172):
`[WIDTH / 2, HEIGHT / 2]`. -/
def circleCenter (s : Sim) : ℝ × ℝ := (s.WIDTH / 2, s.HEIGHT / 2)

/-- Magnitude of a velocity vector, as computed at line 203 of the source:
`Math.sqrt(vx ** 2 + vy ** 2)`. -/
def speed (v : ℝ × ℝ) : ℝ := Real.sqrt (v.1 ^ 2 + v.2 ^ 2)

/-- Dot product of two plane vectors, as computed at line 183 of the source. -/
def dot2 (a b : ℝ × ℝ) : ℝ := a.1 * b.1 + a.2 * b.2

/-- Embedding of `Math.cos (Math.atan2 dy dx)` (lines 211-218): for
`(dx, dy) ≠ (0, 0)` the cosine of the polar angle of `(dx, dy)` is
`dx / sqrt (dx^2 + dy^2)`; JavaScript defines `atan2 0 0 = 0`, whose cosine
is `1`. -/
def cosAtan2 (dy dx : ℝ) : ℝ :=
  if dx = 0 ∧ dy = 0 then 1 else dx / Real.sqrt (dx ^ 2 + dy ^ 2)

/-- Embedding of `Math.sin (Math.atan2 dy dx)` (lines 211-218); JavaScript
defines `atan2 0 0 = 0`, whose sine is `0`. -/
def sinAtan2 (dy dx : ℝ) : ℝ :=
  if dx = 0 ∧ dy = 0 then 0 else dy / Real.sqrt (dx ^ 2 + dy ^ 2)

/-- Line 153 of `update`: `elapsedTime = (now - startTime) / 1000`. -/
def setElapsed (now : ℝ) (s : Sim) : Sim :=
  { s with elapsedTime := (now - s.startTime) / 1000 }

/-- Lines 155-158 of `update`: push the current centre onto the motion trail
and drop the oldest entry when the capacity `MOTION_BLUR_STEPS` is exceeded. -/
def pushTrail (s : Sim) : Sim :=
  let ps := s.previousPositions ++ [s.ballCenter]
  { s with previousPositions := if ps.length > MOTION_BLUR_STEPS then ps.tail else ps }

/-- Line 161 of `update`: `ballVelocity[1] += GRAVITY`. -/
def applyGravity (s : Sim) : Sim :=
  { s with ballVelocity := (s.ballVelocity.1, s.ballVelocity.2 + s.GRAVITY) }

/-- Lines 164-165 of `update`: multiply both velocity components by
`VELOCITY_DECAY`. -/
def applyDecay (s : Sim) : Sim :=
  { s with ballVelocity := (s.ballVelocity.1 * s.VELOCITY_DECAY,
                            s.ballVelocity.2 * s.VELOCITY_DECAY) }

/-- Lines 168-169 of `update`: `ballCenter += ballVelocity`. -/
def integrate (s : Sim) : Sim :=
  { s with ballCenter := (s.ballCenter.1 + s.ballVelocity.1,
                          s.ballCenter.2 + s.ballVelocity.2) }

/-- `dx` at line 173 of `update`. -/
def dxOf (s : Sim) : ℝ := s.ballCenter.1 - (circleCenter s).1

/-- `dy` at line 174 of `update`. -/
def dyOf (s : Sim) : ℝ := s.ballCenter.2 - (circleCenter s).2

/-- `distance` at line 175 of `update`: `Math.sqrt(dx * dx + dy * dy)`. -/
def ballDist (s : Sim) : ℝ := Real.sqrt (dxOf s * dxOf s + dyOf s * dyOf s)

/-- The collision test at line 177 of `update`:
`distance >= CIRCLE_RADIUS - ballRadius`. -/
def collides (s : Sim) : Prop := ballDist s ≥ CIRCLE_RADIUS s - s.ballRadius

instance decCollides (s : Sim) : Decidable (collides s) :=
  inferInstanceAs (Decidable (ballDist s ≥ CIRCLE_RADIUS s - s.ballRadius))

/-- Lines 179-180 of `update`: the outward normal `(dx / distance, dy / distance)`. -/
def collisionNormal (s : Sim) : ℝ × ℝ := (dxOf s / ballDist s, dyOf s / ballDist s)

/-- Lines 183-187 of `update`: reflect the velocity about the normal and scale
by the restitution 0.95. -/
def reflectedVelocity (s : Sim) : ℝ × ℝ :=
  let n := collisionNormal s
  let dot := s.ballVelocity.1 * n.1 + s.ballVelocity.2 * n.2
  ((s.ballVelocity.1 - 2 * dot * n.1) * 0.95,
   (s.ballVelocity.2 - 2 * dot * n.2) * 0.95)

/-- Lines 190-195 of `update`: grow the radius by `BALL_GROWTH_RATE`, capped at
`MAX_BALL_RADIUS`, but only while it is below the cap. -/
def grownRadius (s : Sim) : ℝ :=
  if s.ballRadius < MAX_BALL_RADIUS s then
    min (s.ballRadius * s.BALL_GROWTH_RATE) (MAX_BALL_RADIUS s)
  else s.ballRadius

/-- Lines 198-199 of `update`: scale the reflected velocity by
`VELOCITY_INCREASE_FACTOR`. -/
def boostedVelocity (s : Sim) : ℝ × ℝ :=
  ((reflectedVelocity s).1 * s.VELOCITY_INCREASE_FACTOR,
   (reflectedVelocity s).2 * s.VELOCITY_INCREASE_FACTOR)

/-- Lines 202-208 of `update`: if the boosted speed is below the floor 1.0,
multiply both components by `minVelocity / currentVelocity`. -/
def flooredVelocity (s : Sim) : ℝ × ℝ :=
  let vb := boostedVelocity s
  let currentVelocity := speed vb
  if currentVelocity < 1.0 then
    (vb.1 * (1.0 / currentVelocity), vb.2 * (1.0 / currentVelocity))
  else vb

/-- Lines 211-214 of `update`: the boundary point recorded into
`collisionPoints`. -/
def collisionPointOf (s : Sim) : ℝ × ℝ :=
  ((circleCenter s).1 + CIRCLE_RADIUS s * cosAtan2 (dyOf s) (dxOf s),
   (circleCenter s).2 + CIRCLE_RADIUS s * sinAtan2 (dyOf s) (dxOf s))

/-- Lines 178-223 of `update`: the whole collision branch, taking the state
after position integration.  The repositioning at lines 217-218 uses the radius
grown at lines 190-195.  The `onCollision` callback at lines 221-223 is an
external notification and does not change the simulation state. -/
def collisionResponse (s : Sim) : Sim :=
  { s with
    ballVelocity := flooredVelocity s,
    ballRadius := grownRadius s,
    collisionPoints := s.collisionPoints ++ [collisionPointOf s],
    ballCenter := ((circleCenter s).1 + (CIRCLE_RADIUS s - grownRadius s) * cosAtan2 (dyOf s) (dxOf s),
                   (circleCenter s).2 + (CIRCLE_RADIUS s - grownRadius s) * sinAtan2 (dyOf s) (dxOf s)) }

/-- The state after lines 152-169 of `update`: clock, motion trail, gravity,
decay and position integration, before the collision test. -/
def midState (now : ℝ) (s : Sim) : Sim :=
  integrate (applyDecay (applyGravity (pushTrail (setElapsed now s))))

/-- The method `update` (lines 152-225), transliterated statement by statement:
clock update, motion-trail push with eviction, gravity, velocity decay,
position integration, then the collision test and, when it holds, the
collision branch. -/
def update (now : ℝ) (s : Sim) : Sim :=
  let s0 := { s with elapsedTime := (now - s.startTime) / 1000 }
  let ps := s0.previousPositions ++ [s0.ballCenter]
  let s1 := { s0 with previousPositions := if ps.length > MOTION_BLUR_STEPS then ps.tail else ps }
  let s2 := { s1 with ballVelocity := (s1.ballVelocity.1, s1.ballVelocity.2 + s1.GRAVITY) }
  let s3 := { s2 with ballVelocity := (s2.ballVelocity.1 * s2.VELOCITY_DECAY,
                                       s2.ballVelocity.2 * s2.VELOCITY_DECAY) }
  let s4 := { s3 with ballCenter := (s3.ballCenter.1 + s3.ballVelocity.1,
                                     s3.ballCenter.2 + s3.ballVelocity.2) }
  let dx := s4.ballCenter.1 - (circleCenter s4).1
  let dy := s4.ballCenter.2 - (circleCenter s4).2
  let distance := Real.sqrt (dx * dx + dy * dy)
  if distance ≥ CIRCLE_RADIUS s4 - s4.ballRadius then
    let nx := dx / distance
    let ny := dy / distance
    let dot := s4.ballVelocity.1 * nx + s4.ballVelocity.2 * ny
    let vr : ℝ × ℝ := ((s4.ballVelocity.1 - 2 * dot * nx) * 0.95,
                       (s4.ballVelocity.2 - 2 * dot * ny) * 0.95)
    let r : ℝ :=
      if s4.ballRadius < MAX_BALL_RADIUS s4 then
        min (s4.ballRadius * s4.BALL_GROWTH_RATE) (MAX_BALL_RADIUS s4)
      else s4.ballRadius
    let vb : ℝ × ℝ := (vr.1 * s4.VELOCITY_INCREASE_FACTOR, vr.2 * s4.VELOCITY_INCREASE_FACTOR)
    let currentVelocity := Real.sqrt (vb.1 ^ 2 + vb.2 ^ 2)
    let vf : ℝ × ℝ :=
      if currentVelocity < 1.0 then
        (vb.1 * (1.0 / currentVelocity), vb.2 * (1.0 / currentVelocity))
      else vb
    { s4 with
      ballVelocity := vf,
      ballRadius := r,
      collisionPoints := s4.collisionPoints ++ [((circleCenter s4).1 + CIRCLE_RADIUS s4 * cosAtan2 dy dx,
                                                 (circleCenter s4).2 + CIRCLE_RADIUS s4 * sinAtan2 dy dx)],
      ballCenter := ((circleCenter s4).1 + (CIRCLE_RADIUS s4 - r) * cosAtan2 dy dx,
                     (circleCenter s4).2 + (CIRCLE_RADIUS s4 - r) * sinAtan2 dy dx) }
  else s4

/-- The method `reset` (lines 125-134).  `performance.now()` is the `now`
argument and the random hue of `generateRandomColor` is the `hue` argument. -/
def reset (hue : Nat) (now : ℝ) (s : Sim) : Sim :=
  { s with
    ballRadius := INITIAL_BALL_RADIUS,
    ballCenter := (s.WIDTH / 2, s.HEIGHT / 2.7),
    ballVelocity := (0.8, 0.8),
    collisionPoints := [],
    previousPositions := [],
    startTime := now,
    elapsedTime := 0,
    simulationColor := hue }

/-- The method `stop` (lines 300-303): clear the running flag; the
`cancelAnimationFrame` call only descheduled the external frame callback. -/
def stop (s : Sim) : Sim := { s with running := false }

/-- The method `start` (lines 292-298): restore the clock offset when not
already running, then set the running flag.  The `animate()` call resumes the
externally scheduled frame loop. -/
def start (now : ℝ) (s : Sim) : Sim :=
  let s1 := if s.running then s else { s with startTime := now - s.elapsedTime * 1000 }
  { s1 with running := true }

/-- The method `isRunning` (lines 305-307). -/
def isRunning (s : Sim) : Bool := s.running

/-- The method `setGravity` (lines 136-138). -/
def setGravity (value : ℝ) (s : Sim) : Sim := { s with GRAVITY := value }

/-- The method `setVelocityIncrease` (lines 140-142): stored as `1 + value`. -/
def setVelocityIncrease (value : ℝ) (s : Sim) : Sim :=
  { s with VELOCITY_INCREASE_FACTOR := 1 + value }

/-- The method `setVelocityDecay` (lines 144-146). -/
def setVelocityDecay (value : ℝ) (s : Sim) : Sim := { s with VELOCITY_DECAY := value }

/-- The method `setBallGrowthRate` (lines 148-150): stored as `1 + value`. -/
def setBallGrowthRate (value : ℝ) (s : Sim) : Sim :=
  { s with BALL_GROWTH_RATE := 1 + value }

/-- The method `handleMouseDown` (lines 309-318): when the pointer is within
the ball radius of the ball centre, set the drag flag and stop the loop. -/
def handleMouseDown (x y : ℝ) (s : Sim) : Sim :=
  let dx := x - s.ballCenter.1
  let dy := y - s.ballCenter.2
  let distance := Real.sqrt (dx * dx + dy * dy)
  if distance ≤ s.ballRadius then stop { s with isDragging := true } else s

/-- The method `handleMouseMove` (lines 320-327): while dragging, move the
ball to the pointer and zero the velocity; the `draw()` call only repaints. -/
def handleMouseMove (x y : ℝ) (s : Sim) : Sim :=
  if s.isDragging then
    { s with ballCenter := (x, y), ballVelocity := (0, 0) }
  else s

/-- The method `handleMouseUp` (lines 329-334): while dragging, clear the
drag flag and restart the loop. -/
def handleMouseUp (now : ℝ) (s : Sim) : Sim :=
  if s.isDragging then start now { s with isDragging := false } else s

/-- The states of a browser MediaRecorder: `inactive` when freshly
constructed, `recording` after `start()`. -/
inductive RecorderState
  | inactive
  | recording
  deriving DecidableEq

/-- A browser MediaRecorder handle.  The identifier tags each recorder created
by `setupRecording`, so that replacing the stored recorder by a new object is
observable in the model. -/
structure MediaRecorder where
  id : Nat
  state : RecorderState
  deriving DecidableEq

/-- The recording-related fields of a `CircleSimulation` instance:
`mediaRecorder` (line 4), `chunks` (line 5, modelled by the sizes of the
buffered blobs) and `onRecordingComplete` (line 11, modelled by an identifier
of the callback).  `nextRecorderId` supplies fresh identifiers. -/
structure RecSim where
  mediaRecorder : Option MediaRecorder
  chunks : List Nat
  onRecordingComplete : Option Nat
  nextRecorderId : Nat
  deriving DecidableEq

/-- The method `setupRecording` (lines 68-103): builds the combined stream and
unconditionally replaces `this.mediaRecorder` with a freshly constructed
MediaRecorder, which starts in the `inactive` state.  The `ondataavailable`
and `onstop` handlers installed here only run later, driven by the browser. -/
def setupRecording (s : RecSim) : RecSim :=
  { s with
    mediaRecorder := some { id := s.nextRecorderId, state := RecorderState.inactive },
    nextRecorderId := s.nextRecorderId + 1 }

/-- The method `startRecording` (lines 105-113): first calls `setupRecording`,
then, when the (freshly created) recorder is `inactive`, clears the chunk
buffer, stores the completion callback and starts the recorder. -/
def startRecording (onComplete : Option Nat) (s : RecSim) : RecSim :=
  let s1 := setupRecording s
  match s1.mediaRecorder with
  | some r =>
      if r.state = RecorderState.inactive then
        { s1 with
          chunks := [],
          onRecordingComplete := onComplete,
          mediaRecorder := some { r with state := RecorderState.recording } }
      else s1
  | none => s1

/-- A recording state in which a capture session is active: recorder 0 is
`recording`, one chunk of size 3 is buffered and callback 1 is installed. -/
def recActive : RecSim :=
  { mediaRecorder := some { id := 0, state := RecorderState.recording },
    chunks := [3],
    onRecordingComplete := some 1,
    nextRecorderId := 1 }

/-- A concrete simulation state on a 1080 by 1080 canvas (boundary radius 415,
radius cap 405) that collides on the next tick: with gravity 0 and decay 1 the
ball moves from (948, 540) with velocity (2, 0) to (950, 540), at distance 410
from the centre, exactly the boundary radius minus the ball radius 5. -/
def sW : Sim :=
  { WIDTH := 1080, HEIGHT := 1080,
    GRAVITY := 0, VELOCITY_INCREASE_FACTOR := 1.02,
    VELOCITY_DECAY := 1, BALL_GROWTH_RATE := 1.015,
    ballRadius := 5, ballCenter := (948, 540), ballVelocity := (2, 0),
    collisionPoints := [], previousPositions := [],
    simulationColor := 0, running := true, isDragging := false,
    startTime := 0, elapsedTime := 0 }

/-- A concrete simulation state on a 1080 by 1080 canvas with a stationary
ball (velocity (0, 0), gravity set to 0 through `setGravity`) whose radius 500
exceeds the cap 405, placed at (545, 540): the collision test passes trivially
because the threshold 415 - 500 is negative. -/
def sZero : Sim :=
  { WIDTH := 1080, HEIGHT := 1080,
    GRAVITY := 0, VELOCITY_INCREASE_FACTOR := 1.02,
    VELOCITY_DECAY := 0.9995, BALL_GROWTH_RATE := 1.015,
    ballRadius := 500, ballCenter := (545, 540), ballVelocity := (0, 0),
    collisionPoints := [], previousPositions := [],
    simulationColor := 0, running := true, isDragging := false,
    startTime := 0, elapsedTime := 0 }

/-- A concrete simulation state resting at the boundary centre with zero
velocity and zero gravity: the next tick takes the no-collision branch, since
its distance 0 is below the threshold 415 - 5 = 410. -/
def sRest : Sim :=
  { WIDTH := 1080, HEIGHT := 1080,
    GRAVITY := 0, VELOCITY_INCREASE_FACTOR := 1.02,
    VELOCITY_DECAY := 0.9995, BALL_GROWTH_RATE := 1.015,
    ballRadius := 5, ballCenter := (540, 540), ballVelocity := (0, 0),
    collisionPoints := [], previousPositions := [],
    simulationColor := 0, running := true, isDragging := false,
    startTime := 0, elapsedTime := 0 }

/-- A concrete simulation state with the drag flag set and the loop stopped,
as after a pointer-down inside the ball. -/
def sDrag : Sim :=
  { WIDTH := 1080, HEIGHT := 1080,
    GRAVITY := 0.4, VELOCITY_INCREASE_FACTOR := 1.02,
    VELOCITY_DECAY := 0.9995, BALL_GROWTH_RATE := 1.015,
    ballRadius := 5, ballCenter := (540, 540), ballVelocity := (0, 0),
    collisionPoints := [], previousPositions := [],
    simulationColor := 0, running := false, isDragging := true,
    startTime := 0, elapsedTime := 0 }

/-! ## Helper lemmas -/

/-- `update` decomposes as the pre-collision pipeline followed by the
collision branch exactly when the collision test holds. -/
theorem update_eq (now : ℝ) (s : Sim) :
    update now s =
      if collides (midState now s) then collisionResponse (midState now s)
      else midState now s := rfl

theorem midState_ballRadius (now : ℝ) (s : Sim) :
    (midState now s).ballRadius = s.ballRadius := rfl

theorem midState_VELOCITY_INCREASE_FACTOR (now : ℝ) (s : Sim) :
    (midState now s).VELOCITY_INCREASE_FACTOR = s.VELOCITY_INCREASE_FACTOR := rfl

theorem midState_WIDTH (now : ℝ) (s : Sim) : (midState now s).WIDTH = s.WIDTH := rfl

theorem midState_HEIGHT (now : ℝ) (s : Sim) : (midState now s).HEIGHT = s.HEIGHT := rfl

theorem midState_CIRCLE_RADIUS (now : ℝ) (s : Sim) :
    CIRCLE_RADIUS (midState now s) = CIRCLE_RADIUS s := by
  unfold CIRCLE_RADIUS
  rw [midState_WIDTH, midState_HEIGHT]

theorem midState_MAX_BALL_RADIUS (now : ℝ) (s : Sim) :
    MAX_BALL_RADIUS (midState now s) = MAX_BALL_RADIUS s := by
  unfold MAX_BALL_RADIUS
  rw [midState_CIRCLE_RADIUS]

theorem collisionResponse_ballRadius (s : Sim) :
    (collisionResponse s).ballRadius = grownRadius s := rfl

theorem collisionResponse_ballVelocity (s : Sim) :
    (collisionResponse s).ballVelocity = flooredVelocity s := rfl

theorem collisionResponse_center_fst (s : Sim) :
    (collisionResponse s).ballCenter.1 =
      (circleCenter s).1 + (CIRCLE_RADIUS s - grownRadius s) * cosAtan2 (dyOf s) (dxOf s) := rfl

theorem collisionResponse_center_snd (s : Sim) :
    (collisionResponse s).ballCenter.2 =
      (circleCenter s).2 + (CIRCLE_RADIUS s - grownRadius s) * sinAtan2 (dyOf s) (dxOf s) := rfl

theorem collisionResponse_circleCenter (s : Sim) :
    circleCenter (collisionResponse s) = circleCenter s := rfl

/-- The radius produced by the growth step never exceeds the cap, provided it
was within the cap beforehand. -/
theorem grownRadius_le (s : Sim) (hr : s.ballRadius ≤ MAX_BALL_RADIUS s) :
    grownRadius s ≤ MAX_BALL_RADIUS s := by
  unfold grownRadius
  split_ifs with h
  · exact min_le_right _ _
  · exact hr

theorem speed_nonneg (v : ℝ × ℝ) : 0 ≤ speed v := Real.sqrt_nonneg _

/-- Scaling a velocity by a nonnegative factor scales its magnitude. -/
theorem speed_scale (v : ℝ × ℝ) (t : ℝ) (ht : 0 ≤ t) :
    speed (v.1 * t, v.2 * t) = speed v * t := by
  unfold speed
  have h : (v.1 * t) ^ 2 + (v.2 * t) ^ 2 = (v.1 ^ 2 + v.2 ^ 2) * t ^ 2 := by ring
  rw [h, Real.sqrt_mul (by positivity), Real.sqrt_sq ht]

/-- The embedded cosine and sine of `atan2` lie on the unit circle. -/
theorem cosAtan2_sq_add_sinAtan2_sq (dy dx : ℝ) :
    cosAtan2 dy dx * cosAtan2 dy dx + sinAtan2 dy dx * sinAtan2 dy dx = 1 := by
  unfold cosAtan2 sinAtan2
  by_cases h : dx = 0 ∧ dy = 0
  · rw [if_pos h, if_pos h]; norm_num
  · rw [if_neg h, if_neg h]
    have hpos : 0 < dx ^ 2 + dy ^ 2 := by
      rcases not_and_or.mp h with h1 | h1
      · nlinarith [mul_self_pos.mpr h1, mul_self_nonneg dy]
      · nlinarith [mul_self_pos.mpr h1, mul_self_nonneg dx]
    have hs : Real.sqrt (dx ^ 2 + dy ^ 2) ≠ 0 := ne_of_gt (Real.sqrt_pos.mpr hpos)
    field_simp
    ring

/-- Clicking at (540, 540) lands inside the ball of `sRest`. -/
theorem sRest_click :
    Real.sqrt ((540 - sRest.ballCenter.1) * (540 - sRest.ballCenter.1) +
        (540 - sRest.ballCenter.2) * (540 - sRest.ballCenter.2)) ≤ sRest.ballRadius := by
  have h : (540 - sRest.ballCenter.1) * (540 - sRest.ballCenter.1) +
      (540 - sRest.ballCenter.2) * (540 - sRest.ballCenter.2) = 0 := by
    norm_num [sRest]
  rw [h, Real.sqrt_zero]
  norm_num [sRest]

/-- The pre-collision pipeline carries `sW` to the centre (950, 540). -/
theorem sW_mid_center : (midState 0 sW).ballCenter = (950, 540) := by
  norm_num [midState, integrate, applyDecay, applyGravity, pushTrail, setElapsed, sW]

theorem sW_mid_vel : (midState 0 sW).ballVelocity = (2, 0) := by
  norm_num [midState, integrate, applyDecay, applyGravity, pushTrail, setElapsed, sW]

theorem sW_mid_dx : dxOf (midState 0 sW) = 410 := by
  unfold dxOf circleCenter
  rw [sW_mid_center, midState_WIDTH]
  norm_num [sW]

theorem sW_mid_dy : dyOf (midState 0 sW) = 0 := by
  unfold dyOf circleCenter
  rw [sW_mid_center, midState_HEIGHT]
  norm_num [sW]

theorem sW_dist : ballDist (midState 0 sW) = 410 := by
  unfold ballDist
  rw [sW_mid_dx, sW_mid_dy]
  rw [show (410 : ℝ) * 410 + 0 * 0 = 410 ^ 2 by norm_num]
  rw [Real.sqrt_sq (by norm_num : (0 : ℝ) ≤ 410)]

/-- The tick from `sW` takes the collision branch: the distance 410 equals
the threshold 415 - 5. -/
theorem sW_collides : collides (midState 0 sW) := by
  unfold collides
  rw [sW_dist, midState_CIRCLE_RADIUS, midState_ballRadius]
  norm_num [CIRCLE_RADIUS, sW]

/-- The tick from `sRest` takes the no-collision branch: the ball sits at the
boundary centre, at distance 0 from it. -/
theorem sRest_not_collides : ¬ collides (midState 0 sRest) := by
  have hc : (midState 0 sRest).ballCenter = (540, 540) := by
    norm_num [midState, integrate, applyDecay, applyGravity, pushTrail, setElapsed, sRest]
  have hdx : dxOf (midState 0 sRest) = 0 := by
    unfold dxOf circleCenter
    rw [hc, midState_WIDTH]
    norm_num [sRest]
  have hdy : dyOf (midState 0 sRest) = 0 := by
    unfold dyOf circleCenter
    rw [hc, midState_HEIGHT]
    norm_num [sRest]
  unfold collides ballDist
  rw [hdx, hdy, midState_CIRCLE_RADIUS, midState_ballRadius]
  norm_num [Real.sqrt_zero, CIRCLE_RADIUS, sRest]

/-- The collision normal at the tick from `sW` points along the x axis. -/
theorem sW_normal : collisionNormal (midState 0 sW) = (1, 0) := by
  unfold collisionNormal
  rw [sW_mid_dx, sW_mid_dy, sW_dist]
  norm_num

theorem sW_reflected : reflectedVelocity (midState 0 sW) = (-1.9, 0) := by
  simp only [reflectedVelocity]
  rw [sW_normal, sW_mid_vel]
  norm_num

theorem sW_boosted : boostedVelocity (midState 0 sW) = (-1.938, 0) := by
  simp only [boostedVelocity]
  rw [sW_reflected, midState_VELOCITY_INCREASE_FACTOR]
  norm_num [sW]

theorem sW_boosted_speed : speed (boostedVelocity (midState 0 sW)) = 1.938 := by
  rw [sW_boosted]
  unfold speed
  rw [show (-1.938 : ℝ) ^ 2 + (0 : ℝ) ^ 2 = 1.938 ^ 2 by norm_num]
  rw [Real.sqrt_sq (by norm_num : (0 : ℝ) ≤ 1.938)]

theorem sZero_mid_vel : (midState 0 sZero).ballVelocity = (0, 0) := by
  norm_num [midState, integrate, applyDecay, applyGravity, pushTrail, setElapsed, sZero]

/-- The tick from `sZero` takes the collision branch: the oversized radius
makes the threshold 415 - 500 negative, below any distance. -/
theorem sZero_collides : collides (midState 0 sZero) := by
  unfold collides
  rw [midState_CIRCLE_RADIUS, midState_ballRadius]
  have h2 : CIRCLE_RADIUS sZero - sZero.ballRadius = -85 := by
    norm_num [CIRCLE_RADIUS, sZero]
  rw [h2]
  have h3 := Real.sqrt_nonneg (dxOf (midState 0 sZero) * dxOf (midState 0 sZero) +
    dyOf (midState 0 sZero) * dyOf (midState 0 sZero))
  unfold ballDist
  linarith

theorem sZero_reflected : reflectedVelocity (midState 0 sZero) = (0, 0) := by
  simp only [reflectedVelocity]
  rw [sZero_mid_vel]
  norm_num

theorem sZero_boosted : boostedVelocity (midState 0 sZero) = (0, 0) := by
  simp only [boostedVelocity]
  rw [sZero_reflected]
  norm_num

theorem speed_zero : speed ((0 : ℝ), (0 : ℝ)) = 0 := by
  unfold speed
  norm_num [Real.sqrt_zero]

theorem sZero_floored : flooredVelocity (midState 0 sZero) = (0, 0) := by
  simp only [flooredVelocity]
  rw [sZero_boosted, speed_zero]
  rw [if_pos (by norm_num : (0 : ℝ) < 1.0)]
  norm_num

theorem sZero_radius : (update 0 sZero).ballRadius = 500 := by
  rw [update_eq, if_pos sZero_collides, collisionResponse_ballRadius]
  simp only [grownRadius, midState_ballRadius, midState_MAX_BALL_RADIUS]
  rw [if_neg (by norm_num [MAX_BALL_RADIUS, CIRCLE_RADIUS, sZero] :
    ¬ sZero.ballRadius < MAX_BALL_RADIUS sZero)]
  norm_num [sZero]

/-! ## Claim theorems -/

/-- C9: under the precondition `ballRadius < CIRCLE_RADIUS`, whenever `update`
enters the collision branch the computed distance is strictly positive, so
the divisions by the distance that form the collision normal never divide by
zero; the `distance == 0` case is unreachable under that precondition. -/
theorem collision_distance_pos (s : Sim) (now : ℝ)
    (hr : s.ballRadius < CIRCLE_RADIUS s)
    (hc : collides (midState now s)) :
    0 < ballDist (midState now s) := by
  have h1 : CIRCLE_RADIUS (midState now s) - (midState now s).ballRadius ≤
      ballDist (midState now s) := hc
  rw [midState_CIRCLE_RADIUS, midState_ballRadius] at h1
  linarith

/-- Witness for C9 at the colliding state `sW`, whose radius 5 is below the
boundary radius 415. -/
theorem collision_distance_pos_witness : 0 < ballDist (midState 0 sW) :=
  collision_distance_pos sW 0 (by norm_num [CIRCLE_RADIUS, sW]) sW_collides

/-- C3: for every collision in `update`, the velocity immediately after the
reflection step satisfies `v' · n = -0.95 * (v · n)`: the normal component
reverses and scales by the restitution 0.95, before the boost factor and the
velocity floor are applied. -/
theorem reflection_law (s : Sim) (now : ℝ) (hc : collides (midState now s)) :
    dot2 (reflectedVelocity (midState now s)) (collisionNormal (midState now s)) =
      -(0.95 * dot2 (midState now s).ballVelocity (collisionNormal (midState now s))) := by
  set m := midState now s with hm
  clear hc hm
  simp only [dot2, reflectedVelocity, collisionNormal]
  by_cases hd : ballDist m = 0
  · rw [hd]
    simp
  · have hX : 0 ≤ dxOf m * dxOf m + dyOf m * dyOf m := by
      nlinarith [mul_self_nonneg (dxOf m), mul_self_nonneg (dyOf m)]
    have hd2 : ballDist m * ballDist m = dxOf m * dxOf m + dyOf m * dyOf m :=
      Real.mul_self_sqrt hX
    have h1 : dxOf m / ballDist m * (dxOf m / ballDist m) +
        dyOf m / ballDist m * (dyOf m / ballDist m) = 1 := by
      field_simp
      linear_combination -hd2
    set nx := dxOf m / ballDist m
    set ny := dyOf m / ballDist m
    set v1 := m.ballVelocity.1
    set v2 := m.ballVelocity.2
    linear_combination (-(1.9) * (v1 * nx + v2 * ny)) * h1

/-- Witness for C3 at the colliding state `sW`. -/
theorem reflection_law_witness :
    dot2 (reflectedVelocity (midState 0 sW)) (collisionNormal (midState 0 sW)) =
      -(0.95 * dot2 (midState 0 sW).ballVelocity (collisionNormal (midState 0 sW))) :=
  reflection_law sW 0 sW_collides

/-- C6: on every tick that does not take the collision branch, the ball
radius is unchanged, and (for a nonnegative decay factor, as set through
`setVelocityDecay`) the speed after the decay step equals the decay factor
times the speed after the gravity step. -/
theorem no_collision_tick (s : Sim) (now : ℝ)
    (hnc : ¬ collides (midState now s))
    (hd : 0 ≤ s.VELOCITY_DECAY) :
    (update now s).ballRadius = s.ballRadius ∧
    speed (applyDecay (applyGravity (pushTrail (setElapsed now s)))).ballVelocity =
      s.VELOCITY_DECAY * speed (applyGravity (pushTrail (setElapsed now s))).ballVelocity := by
  constructor
  · rw [update_eq, if_neg hnc, midState_ballRadius]
  · set g := applyGravity (pushTrail (setElapsed now s))
    have h1 : (applyDecay g).ballVelocity =
        (g.ballVelocity.1 * g.VELOCITY_DECAY, g.ballVelocity.2 * g.VELOCITY_DECAY) := rfl
    have h2 : g.VELOCITY_DECAY = s.VELOCITY_DECAY := rfl
    rw [h1, h2, speed_scale _ _ hd, mul_comm]

/-- Witness for C6 at the non-colliding state `sRest`. -/
theorem no_collision_tick_witness :
    (update 0 sRest).ballRadius = sRest.ballRadius ∧
    speed (applyDecay (applyGravity (pushTrail (setElapsed 0 sRest)))).ballVelocity =
      sRest.VELOCITY_DECAY * speed (applyGravity (pushTrail (setElapsed 0 sRest))).ballVelocity :=
  no_collision_tick sRest 0 sRest_not_collides (by norm_num [sRest])

/-- Counterexample to C2 as stated: from the state `sZero` (stationary ball,
gravity set to 0, radius 500 above the cap 405) the collision branch is
taken, yet the resulting speed is 0, not at least 1.0 — the velocity-floor
rescale divides by the zero boosted speed — and the resulting radius 500
still exceeds `MAX_BALL_RADIUS`. -/
theorem collision_speed_floor_cex :
    collides (midState 0 sZero) ∧
    speed (update 0 sZero).ballVelocity = 0 ∧
    (update 0 sZero).ballRadius = 500 ∧
    MAX_BALL_RADIUS sZero = 405 ∧
    ¬ (1 ≤ speed (update 0 sZero).ballVelocity ∧
       (update 0 sZero).ballRadius ≤ MAX_BALL_RADIUS sZero) := by
  have hv : speed (update 0 sZero).ballVelocity = 0 := by
    rw [update_eq, if_pos sZero_collides, collisionResponse_ballVelocity, sZero_floored,
      speed_zero]
  have hmax : MAX_BALL_RADIUS sZero = 405 := by
    norm_num [MAX_BALL_RADIUS, CIRCLE_RADIUS, sZero]
  refine ⟨sZero_collides, hv, sZero_radius, hmax, ?_⟩
  rintro ⟨h1, -⟩
  rw [hv] at h1
  linarith

/-- C2 (amended): for every tick of `update` in which the collision branch is
taken, provided the speed after reflection and boost is nonzero and the
pre-tick ball radius is at most `MAX_BALL_RADIUS`, the resulting speed
`sqrt(vx^2 + vy^2)` is at least 1.0 (the velocity floor: a speed below 1.0
is rescaled to exactly 1.0) and the resulting ball radius is at most
`MAX_BALL_RADIUS`. -/
theorem collision_speed_floor (s : Sim) (now : ℝ)
    (hc : collides (midState now s))
    (hv : speed (boostedVelocity (midState now s)) ≠ 0)
    (hr : s.ballRadius ≤ MAX_BALL_RADIUS s) :
    1 ≤ speed (update now s).ballVelocity ∧
    (update now s).ballRadius ≤ MAX_BALL_RADIUS s := by
  have hu : update now s = collisionResponse (midState now s) := by
    rw [update_eq, if_pos hc]
  constructor
  · rw [hu, collisionResponse_ballVelocity]
    simp only [flooredVelocity]
    set vb := boostedVelocity (midState now s) with hvb
    have hone : (1.0 : ℝ) = 1 := by norm_num
    by_cases hlt : speed vb < 1.0
    · rw [if_pos hlt]
      have h0 : 0 ≤ 1.0 / speed vb := div_nonneg (by norm_num) (speed_nonneg vb)
      rw [speed_scale vb _ h0, hone, mul_one_div, div_self hv]
    · rw [if_neg hlt]
      push_neg at hlt
      rw [hone] at hlt
      exact hlt
  · rw [hu, collisionResponse_ballRadius]
    have hmr : (midState now s).ballRadius ≤ MAX_BALL_RADIUS (midState now s) := by
      rw [midState_ballRadius, midState_MAX_BALL_RADIUS]
      exact hr
    have hg := grownRadius_le (midState now s) hmr
    rw [midState_MAX_BALL_RADIUS] at hg
    exact hg

/-- Witness for C2 (amended) at the colliding state `sW`, whose boosted
speed 1.938 is nonzero and whose radius 5 is within the cap 405. -/
theorem collision_speed_floor_witness :
    1 ≤ speed (update 0 sW).ballVelocity ∧
    (update 0 sW).ballRadius ≤ MAX_BALL_RADIUS sW :=
  collision_speed_floor sW 0 sW_collides
    (by rw [sW_boosted_speed]; norm_num)
    (by norm_num [MAX_BALL_RADIUS, CIRCLE_RADIUS, sW])

/-- C5: immediately after the collision-correction (repositioning) step of
any colliding tick of `update` whose pre-tick radius is within the cap
`MAX_BALL_RADIUS`, the distance from the ball centre to the boundary centre
plus the ball radius is at most the boundary radius (the claimed bound with
epsilon = 0): the ball is placed just inside the boundary along the
collision angle. -/
theorem collision_containment (s : Sim) (now : ℝ)
    (hc : collides (midState now s))
    (hr : s.ballRadius ≤ MAX_BALL_RADIUS s) :
    ballDist (update now s) + (update now s).ballRadius ≤ CIRCLE_RADIUS s := by
  have hu : update now s = collisionResponse (midState now s) := by
    rw [update_eq, if_pos hc]
  have hg : grownRadius (midState now s) ≤ MAX_BALL_RADIUS s := by
    have hmr : (midState now s).ballRadius ≤ MAX_BALL_RADIUS (midState now s) := by
      rw [midState_ballRadius, midState_MAX_BALL_RADIUS]
      exact hr
    have h := grownRadius_le (midState now s) hmr
    rw [midState_MAX_BALL_RADIUS] at h
    exact h
  have hR : MAX_BALL_RADIUS s = CIRCLE_RADIUS s - 10 := rfl
  have hdx : dxOf (collisionResponse (midState now s)) =
      (CIRCLE_RADIUS s - grownRadius (midState now s)) *
        cosAtan2 (dyOf (midState now s)) (dxOf (midState now s)) := by
    have h1 : dxOf (collisionResponse (midState now s)) =
        (collisionResponse (midState now s)).ballCenter.1 -
          (circleCenter (collisionResponse (midState now s))).1 := rfl
    rw [h1, collisionResponse_center_fst, collisionResponse_circleCenter,
      midState_CIRCLE_RADIUS]
    ring
  have hdy : dyOf (collisionResponse (midState now s)) =
      (CIRCLE_RADIUS s - grownRadius (midState now s)) *
        sinAtan2 (dyOf (midState now s)) (dxOf (midState now s)) := by
    have h1 : dyOf (collisionResponse (midState now s)) =
        (collisionResponse (midState now s)).ballCenter.2 -
          (circleCenter (collisionResponse (midState now s))).2 := rfl
    rw [h1, collisionResponse_center_snd, collisionResponse_circleCenter,
      midState_CIRCLE_RADIUS]
    ring
  have harr : (CIRCLE_RADIUS s - grownRadius (midState now s)) *
        cosAtan2 (dyOf (midState now s)) (dxOf (midState now s)) *
        ((CIRCLE_RADIUS s - grownRadius (midState now s)) *
          cosAtan2 (dyOf (midState now s)) (dxOf (midState now s))) +
      (CIRCLE_RADIUS s - grownRadius (midState now s)) *
        sinAtan2 (dyOf (midState now s)) (dxOf (midState now s)) *
        ((CIRCLE_RADIUS s - grownRadius (midState now s)) *
          sinAtan2 (dyOf (midState now s)) (dxOf (midState now s))) =
      (CIRCLE_RADIUS s - grownRadius (midState now s)) ^ 2 *
        (cosAtan2 (dyOf (midState now s)) (dxOf (midState now s)) *
          cosAtan2 (dyOf (midState now s)) (dxOf (midState now s)) +
         sinAtan2 (dyOf (midState now s)) (dxOf (midState now s)) *
          sinAtan2 (dyOf (midState now s)) (dxOf (midState now s))) := by
    ring
  have key : ballDist (collisionResponse (midState now s)) =
      |CIRCLE_RADIUS s - grownRadius (midState now s)| := by
    unfold ballDist
    rw [hdx, hdy, harr, cosAtan2_sq_add_sinAtan2_sq, mul_one, Real.sqrt_sq_eq_abs]
  have habs : |CIRCLE_RADIUS s - grownRadius (midState now s)| =
      CIRCLE_RADIUS s - grownRadius (midState now s) := by
    apply abs_of_nonneg
    rw [hR] at hg
    linarith
  rw [hu, key, habs, collisionResponse_ballRadius]
  linarith

/-- Witness for C5 at the colliding state `sW`. -/
theorem collision_containment_witness :
    ballDist (update 0 sW) + (update 0 sW).ballRadius ≤ CIRCLE_RADIUS sW :=
  collision_containment sW 0 sW_collides
    (by norm_num [MAX_BALL_RADIUS, CIRCLE_RADIUS, sW])

/-- C4: every call to `update` performs, in this order: append the current
centre to the motion trail (evicting the oldest entry beyond capacity 5), add
`GRAVITY` to the vertical velocity, multiply both velocity components by the
decay factor, add the velocity to the centre, and then test collision exactly
when `distance(center, boundaryCenter) >= boundaryRadius - ballRadius`; the
collision-response steps run only when that test holds. -/
theorem update_pipeline_order (now : ℝ) (s : Sim) :
    update now s =
      if collides (integrate (applyDecay (applyGravity (pushTrail (setElapsed now s))))) then
        collisionResponse (integrate (applyDecay (applyGravity (pushTrail (setElapsed now s)))))
      else integrate (applyDecay (applyGravity (pushTrail (setElapsed now s)))) :=
  update_eq now s

/-- C8: `reset` is idempotent with respect to the physical state: repeated
calls with no ticks in between always produce the same ball radius (the
initial radius), centre and velocity, and empty motion-trail and
collision-mark sequences, whatever hue and clock value each call draws; only
the simulation colour may differ between calls. -/
theorem reset_idempotent (s : Sim) (h1 h2 : Nat) (t1 t2 : ℝ) :
    (reset h2 t2 (reset h1 t1 s)).ballRadius = (reset h1 t1 s).ballRadius ∧
    (reset h2 t2 (reset h1 t1 s)).ballCenter = (reset h1 t1 s).ballCenter ∧
    (reset h2 t2 (reset h1 t1 s)).ballVelocity = (reset h1 t1 s).ballVelocity ∧
    (reset h1 t1 s).ballRadius = INITIAL_BALL_RADIUS ∧
    (reset h2 t2 (reset h1 t1 s)).previousPositions = [] ∧
    (reset h2 t2 (reset h1 t1 s)).collisionPoints = [] ∧
    (reset h1 t1 s).previousPositions = [] ∧
    (reset h1 t1 s).collisionPoints = [] :=
  ⟨rfl, rfl, rfl, rfl, rfl, rfl, rfl, rfl⟩

/-- C1: the claim states that `startRecording` is a no-op while a capture
session is active.  On the code it is not: `setupRecording` unconditionally
replaces the stored recorder with a fresh one, which is `inactive`, so the
guard always passes; the chunk buffer is cleared, the completion callback is
overwritten and a new recording starts, while the previously active recorder
is abandoned without being stopped.  This theorem evaluates `startRecording`
on a state with an active session and a buffered chunk. -/
theorem startRecording_active_not_noop :
    (startRecording (some 2) recActive).mediaRecorder =
        some { id := 1, state := RecorderState.recording } ∧
    (startRecording (some 2) recActive).chunks = [] ∧
    (startRecording (some 2) recActive).onRecordingComplete = some 2 ∧
    startRecording (some 2) recActive ≠ recActive := by
  refine ⟨rfl, rfl, rfl, ?_⟩
  decide

/-- C10: whenever the drag flag is set, `handleMouseUp` leaves the simulation
in the Running state, even if it had been stopped by an explicit `stop`
before the drag began; whenever the drag flag is not set, `handleMouseUp`
changes nothing; and `handleMouseDown` at a point within the ball radius of
the ball centre leaves the loop stopped, also when it is already stopped. -/
theorem mouse_handlers_running (s : Sim) (now x y : ℝ) :
    (s.isDragging = true → isRunning (handleMouseUp now s) = true) ∧
    (s.isDragging = false → handleMouseUp now s = s) ∧
    (Real.sqrt ((x - s.ballCenter.1) * (x - s.ballCenter.1) +
        (y - s.ballCenter.2) * (y - s.ballCenter.2)) ≤ s.ballRadius →
      isRunning (handleMouseDown x y s) = false) := by
  refine ⟨?_, ?_, ?_⟩
  · intro h
    simp [handleMouseUp, start, isRunning, h]
  · intro h
    simp [handleMouseUp, h]
  · intro h
    simp only [handleMouseDown]
    rw [if_pos h]
    rfl

/-- Witness for C10 at the concrete states `sDrag` and `sRest`. -/
theorem mouse_handlers_running_witness :
    isRunning (handleMouseUp 3 sDrag) = true ∧
    handleMouseUp 3 sRest = sRest ∧
    isRunning (handleMouseDown 540 540 sRest) = false :=
  ⟨(mouse_handlers_running sDrag 3 0 0).1 rfl,
   (mouse_handlers_running sRest 3 0 0).2.1 rfl,
   (mouse_handlers_running sRest 3 540 540).2.2 sRest_click⟩

/-- C7: for every state, pointer-down at a point inside the ball (distance to
the ball centre at most the ball radius), then pointer-move to P, then
pointer-up leaves the ball centre exactly at P with velocity (0, 0) at the
instant of pointer-up, clears the drag flag, and leaves the tick loop in the
Running state. -/
theorem drag_override (s : Sim) (x y px py now : ℝ)
    (h : Real.sqrt ((x - s.ballCenter.1) * (x - s.ballCenter.1) +
        (y - s.ballCenter.2) * (y - s.ballCenter.2)) ≤ s.ballRadius) :
    (handleMouseUp now (handleMouseMove px py (handleMouseDown x y s))).ballCenter = (px, py) ∧
    (handleMouseUp now (handleMouseMove px py (handleMouseDown x y s))).ballVelocity = (0, 0) ∧
    (handleMouseUp now (handleMouseMove px py (handleMouseDown x y s))).isDragging = false ∧
    (handleMouseUp now (handleMouseMove px py (handleMouseDown x y s))).running = true := by
  have h1 : handleMouseDown x y s = stop { s with isDragging := true } := by
    simp only [handleMouseDown]
    rw [if_pos h]
  rw [h1]
  exact ⟨rfl, rfl, rfl, rfl⟩


/-- Witness for C7: dragging the ball of `sRest` from its centre to
(100, 200). -/
theorem drag_override_witness :
    (handleMouseUp 7 (handleMouseMove 100 200 (handleMouseDown 540 540 sRest))).ballCenter = (100, 200) ∧
    (handleMouseUp 7 (handleMouseMove 100 200 (handleMouseDown 540 540 sRest))).ballVelocity = (0, 0) ∧
    (handleMouseUp 7 (handleMouseMove 100 200 (handleMouseDown 540 540 sRest))).isDragging = false ∧
    (handleMouseUp 7 (handleMouseMove 100 200 (handleMouseDown 540 540 sRest))).running = true :=
  drag_override sRest 540 540 100 200 7 sRest_click

end

end CircleSim
